import Mathlib

/-!
Shallow embedding of the rendering core of the `webgpu-engine` repository.

Part 1 models the geometry batcher of `TrianglePass.createMeshBuffer`
(src/src/render/pass/TrianglePass.ts).  Typed arrays are modelled as
`List Nat` (float and integer values are opaque; only lengths, positions
and equality matter for the claims).  `TypedArray.set(src, offset)` is
modelled by `typedSet`; every `set` call in the modelled code path is
in range, where that semantics coincides with the JavaScript one.

Part 2 models the `WebGPU` resource registry class (create / get /
destroy for shared buffers and textures).  GPU objects are modelled as
handles minted from a counter; `device.createBuffer` / `createTexture`
mint a fresh handle, and an explicit `destroyed` list records the
handles on which `.destroy()` was actually invoked.
-/

namespace WebgpuEngine

/-- A `TriangleMesh` asset: interleaved vertex data (`vertexBuffer`,
a `Float32Array`) and index data (`elementBuffer`, a `Uint32Array`).
JavaScript `Map` keys compare mesh objects by reference; `meshId` plays
the role of the object identity, so distinct mesh objects carry distinct
`meshId`s. -/
structure TriangleMesh where
  meshId : Nat
  vertexBuffer : List Nat
  elementBuffer : List Nat
deriving DecidableEq

/-- A `MeshInstance` payload: the referenced mesh asset and the 16-float
column-major world transform returned by `getWorldTransform()`. -/
structure MeshInst where
  mesh : TriangleMesh
  transform : List Nat
deriving DecidableEq

/-- A scene entity: its scene-unique id (`scene.getId(object)`) and, when
the entity `instanceof MeshInstance`, its mesh-instance payload. -/
structure Entity where
  id : Nat
  inst : Option MeshInst
deriving DecidableEq

/-- `Scene.entities` in `Map` iteration (insertion) order. -/
abbrev Scene := List Entity

/-- `target.set(src, off)` on a typed array, for in-range writes. -/
def typedSet (target : List Nat) (src : List Nat) (off : Nat) : List Nat :=
  target.take off ++ src ++ target.drop (off + src.length)

/-- The value stored per mesh in the `instances` map:
`\x7b count: number, ids: number[] \x7d`. -/
structure InstanceGroup where
  count : Nat
  ids : List Nat
deriving DecidableEq

/-- State of the first scan over `scene.entities`. The `instances` map
is an association list in insertion (first-encounter) order, matching
JavaScript `Map` iteration order. -/
structure ScanState where
  vertexSize : Nat
  indexSize : Nat
  transformArray : List Nat
  instances : List (TriangleMesh × InstanceGroup)
deriving DecidableEq

/-- `instances.get(mesh)`. -/
def findGroup (l : List (TriangleMesh × InstanceGroup)) (m : TriangleMesh) :
    Option InstanceGroup :=
  (l.find? (fun p => decide (p.1 = m))).map Prod.snd

/-- `count.count++` on the group object stored under mesh `m`. -/
def bumpCount (l : List (TriangleMesh × InstanceGroup)) (m : TriangleMesh) :
    List (TriangleMesh × InstanceGroup) :=
  l.map (fun p => if p.1 = m then (p.1, { p.2 with count := p.2.count + 1 }) else p)

/-- One step of the `scene.entities.forEach` loop in `createMeshBuffer`:
non-mesh entities are skipped; the world transform is written at offset
`scene.getId(object)` (the raw id, exactly as in the source); a mesh seen
for the first time contributes its buffer lengths and a fresh group
`\x7b count: 1, ids: [id] \x7d`; otherwise only `count.count++` runs
(the source never appends to `ids` in that branch). -/
def scanEntity (s : ScanState) (e : Entity) : ScanState :=
  match e.inst with
  | none => s
  | some mi =>
    let s1 : ScanState :=
      { s with transformArray := typedSet s.transformArray mi.transform e.id }
    match findGroup s1.instances mi.mesh with
    | none =>
      { s1 with
        vertexSize := s1.vertexSize + mi.mesh.vertexBuffer.length
        indexSize := s1.indexSize + mi.mesh.elementBuffer.length
        instances := s1.instances ++ [(mi.mesh, { count := 1, ids := [e.id] })] }
    | some _ => { s1 with instances := bumpCount s1.instances mi.mesh }

/-- The full first scan; `transformArray` starts as
`new Float32Array(scene.entities.size * 16)` (zero-initialised). -/
def scanScene (scene : Scene) : ScanState :=
  scene.foldl scanEntity
    { vertexSize := 0
      indexSize := 0
      transformArray := List.replicate (scene.length * 16) 0
      instances := [] }

/-- State of the `instances.forEach` loop that fills the output arrays. -/
structure FillState where
  vertexArray : List Nat
  indexArray : List Nat
  idArray : List Nat
  drawParameters : List Nat
  vertexOffset : Nat
  indexOffset : Nat
  objectOffset : Nat
deriving DecidableEq

/-- One step of the `instances.forEach` loop.  Note, exactly as in the
source: the draw-parameter write passes no offset, so it always lands at
position 0, and its first component is `mesh.vertexBuffer.length`. -/
def fillMesh (s : FillState) (p : TriangleMesh × InstanceGroup) : FillState :=
  { vertexArray := typedSet s.vertexArray p.1.vertexBuffer s.vertexOffset
    indexArray := typedSet s.indexArray p.1.elementBuffer s.indexOffset
    idArray := typedSet s.idArray p.2.ids s.objectOffset
    drawParameters := typedSet s.drawParameters
      [p.1.vertexBuffer.length, p.2.count, s.indexOffset, 0, s.objectOffset] 0
    vertexOffset := s.vertexOffset + p.1.vertexBuffer.length
    indexOffset := s.indexOffset + p.1.elementBuffer.length
    objectOffset := s.objectOffset + p.2.count }

/-- Result of one run of `createMeshBuffer`: the host arrays, the four
registry `createBuffer` calls (label, byte size) in call order, and the
four `queue.writeBuffer` uploads (target label, contents) in call order. -/
structure MeshBufferResult where
  transformArray : List Nat
  vertexArray : List Nat
  indexArray : List Nat
  idArray : List Nat
  drawParameters : List Nat
  instancesSize : Nat
  bufferOps : List (String × Nat)
  uploads : List (String × List Nat)
deriving DecidableEq

/-- `TrianglePass.createMeshBuffer`, one frame.  Element size is 4 bytes
for all four arrays (`Float32Array` / `Uint32Array`), so
`byteLength = 4 * length`.  The `idArray` is allocated with length
`scene.entities.size` and the transform upload passes `drawParameters`,
both exactly as in the source. -/
def createMeshBuffer (minBuffersize : Nat) (scene : Scene) : MeshBufferResult :=
  let s1 := scanScene scene
  let s2 := s1.instances.foldl fillMesh
    { vertexArray := List.replicate s1.vertexSize 0
      indexArray := List.replicate s1.indexSize 0
      idArray := List.replicate scene.length 0
      drawParameters := List.replicate (s1.instances.length * 5) 0
      vertexOffset := 0
      indexOffset := 0
      objectOffset := 0 }
  { transformArray := s1.transformArray
    vertexArray := s2.vertexArray
    indexArray := s2.indexArray
    idArray := s2.idArray
    drawParameters := s2.drawParameters
    instancesSize := s1.instances.length
    bufferOps :=
      [("vertex", max (4 * s2.vertexArray.length) minBuffersize),
       ("index", max (4 * s2.indexArray.length) minBuffersize),
       ("transform", max (4 * s1.transformArray.length) minBuffersize),
       ("object-index", max (4 * s2.idArray.length) minBuffersize)]
    uploads :=
      [("vertex", s2.vertexArray),
       ("index", s2.indexArray),
       ("transform", s2.drawParameters),
       ("object-index", s2.idArray)] }

/-- The `render` loop over `this.drawParameters`
(`for i = 0; i < length; i += 5`), one `drawIndexed` call per step. -/
def drawCalls : List Nat → List (Nat × Nat × Nat × Nat × Nat)
  | a :: b :: c :: d :: e :: rest => (a, b, c, d, e) :: drawCalls rest
  | _ => []

/-! ### The §8 concrete scenario

Three entities: two instances of mesh A (4 vertices, hence 32 interleaved
floats at the fixed 32-byte stride, and 6 indices) and one instance of
mesh B (3 vertices = 24 floats, 3 indices), first-encountered in order
A, A, B, with scene ids 0, 1, 2 and distinguishable transforms. -/

def meshA : TriangleMesh :=
  { meshId := 0, vertexBuffer := List.replicate 32 1, elementBuffer := [0, 1, 2, 2, 1, 3] }

def meshB : TriangleMesh :=
  { meshId := 1, vertexBuffer := List.replicate 24 2, elementBuffer := [0, 1, 2] }

def sceneS8 : Scene :=
  [{ id := 0, inst := some { mesh := meshA, transform := List.replicate 16 10 } },
   { id := 1, inst := some { mesh := meshA, transform := List.replicate 16 11 } },
   { id := 2, inst := some { mesh := meshB, transform := List.replicate 16 12 } }]

/-! ### Part 2: the `WebGPU` resource registry -/

/-- `GPUBufferDescriptor`: size and usage flags, plus the optional label
field that `WebGPU.createBuffer` overwrites. -/
structure GPUBufferDescriptor where
  size : Nat
  usage : Nat
  label : Option String := none
deriving DecidableEq

/-- `GPUTextureDescriptor`: dimensions, format and usage, plus the
optional label field that `WebGPU.createTexture` overwrites. -/
structure GPUTextureDescriptor where
  width : Nat
  height : Nat
  format : String
  usage : Nat
  label : Option String := none
deriving DecidableEq

/-- `map.get(label)` on an association list with `Map` semantics
(keys are unique, so first match is the match). -/
def lookupEntry (l : List (String × Nat)) (label : String) : Option Nat :=
  match l with
  | [] => none
  | p :: rest => if p.1 = label then some p.2 else lookupEntry rest label

/-- `map.set(label, h)`: replace the value under an existing key in
place, otherwise append at the end (JavaScript `Map` insertion order). -/
def setEntry (l : List (String × Nat)) (label : String) (h : Nat) :
    List (String × Nat) :=
  match l with
  | [] => [(label, h)]
  | p :: rest => if p.1 = label then (label, h) :: rest else p :: setEntry rest label h

/-- `map.delete(label)`: remove the entry under the key, if present. -/
def removeEntry (l : List (String × Nat)) (label : String) : List (String × Nat) :=
  match l with
  | [] => []
  | p :: rest => if p.1 = label then rest else p :: removeEntry rest label

/-- State of a `WebGPU` instance: the two label-keyed maps of shared
resources, the handles on which `.destroy()` has been invoked, and the
device's counter minting fresh handles. -/
structure WebGPUState where
  sharedBuffers : List (String × Nat)
  sharedTextures : List (String × Nat)
  destroyedBuffers : List Nat
  destroyedTextures : List Nat
  nextHandle : Nat
deriving DecidableEq

/-- The state right after `init()`: both maps empty. -/
def initialWebGPU : WebGPUState :=
  { sharedBuffers := []
    sharedTextures := []
    destroyedBuffers := []
    destroyedTextures := []
    nextHandle := 0 }

/-- Result of `WebGPU.createBuffer`: the new state, the returned buffer
handle, the caller's descriptor object after the call (the source mutates
it), and the descriptor `device.createBuffer` was invoked with. -/
structure BufferCreateResult where
  state : WebGPUState
  buffer : Nat
  callerDescriptor : GPUBufferDescriptor
  deviceDescriptor : GPUBufferDescriptor
deriving DecidableEq

/-- `WebGPU.createBuffer(descriptor, label)`: sets `descriptor.label`,
creates the GPU buffer from the mutated descriptor, destroys the old
buffer registered under `label` if any, then installs the new one. -/
def createBuffer (s : WebGPUState) (descriptor : GPUBufferDescriptor)
    (label : String) : BufferCreateResult :=
  let d := { descriptor with label := some label }
  let buffer := s.nextHandle
  let destroyed :=
    match lookupEntry s.sharedBuffers label with
    | some old => old :: s.destroyedBuffers
    | none => s.destroyedBuffers
  { state :=
      { s with
        sharedBuffers := setEntry s.sharedBuffers label buffer
        destroyedBuffers := destroyed
        nextHandle := s.nextHandle + 1 }
    buffer := buffer
    callerDescriptor := d
    deviceDescriptor := d }

/-- `WebGPU.getBuffer(label)`: the registered buffer, or a thrown
`Error` when no buffer is registered under the label. -/
def getBuffer (s : WebGPUState) (label : String) : Except String Nat :=
  match lookupEntry s.sharedBuffers label with
  | some buffer => Except.ok buffer
  | none => Except.error ("There is no buffer with the label: " ++ label)

/-- `WebGPU.destroyBuffer(label)`: the source evaluates
`this.sharedBuffers.get(label)?.destroy` — a property reference without a
call — so no handle is ever added to `destroyedBuffers`; only the map
entry is deleted. -/
def destroyBuffer (s : WebGPUState) (label : String) : WebGPUState :=
  { s with sharedBuffers := removeEntry s.sharedBuffers label }

/-- Result of `WebGPU.createTexture`, mirroring `BufferCreateResult`. -/
structure TextureCreateResult where
  state : WebGPUState
  texture : Nat
  callerDescriptor : GPUTextureDescriptor
  deviceDescriptor : GPUTextureDescriptor
deriving DecidableEq

/-- `WebGPU.createTexture(descriptor, label)`: same shape as
`createBuffer` on the texture map. -/
def createTexture (s : WebGPUState) (descriptor : GPUTextureDescriptor)
    (label : String) : TextureCreateResult :=
  let d := { descriptor with label := some label }
  let texture := s.nextHandle
  let destroyed :=
    match lookupEntry s.sharedTextures label with
    | some old => old :: s.destroyedTextures
    | none => s.destroyedTextures
  { state :=
      { s with
        sharedTextures := setEntry s.sharedTextures label texture
        destroyedTextures := destroyed
        nextHandle := s.nextHandle + 1 }
    texture := texture
    callerDescriptor := d
    deviceDescriptor := d }

/-- `WebGPU.getTexture(label)`: the registered texture, or a thrown
`Error` when no texture is registered under the label. -/
def getTexture (s : WebGPUState) (label : String) : Except String Nat :=
  match lookupEntry s.sharedTextures label with
  | some texture => Except.ok texture
  | none => Except.error ("There is no texture with the label: " ++ label)

/-- `WebGPU.destroyTexture(label)`: here the source does call
`?.destroy()`, so the old handle is recorded as destroyed and the map
entry is deleted. -/
def destroyTexture (s : WebGPUState) (label : String) : WebGPUState :=
  { s with
    destroyedTextures :=
      match lookupEntry s.sharedTextures label with
      | some old => old :: s.destroyedTextures
      | none => s.destroyedTextures
    sharedTextures := removeEntry s.sharedTextures label }

/-- Keys of a resource map are pairwise distinct (invariant of every
`Map`-backed association list). -/
def uniqueKeys (l : List (String × Nat)) : Prop :=
  l.Pairwise (fun a b => a.1 ≠ b.1)

instance (l : List (String × Nat)) : Decidable (uniqueKeys l) := by
  unfold uniqueKeys; infer_instance

/-- A 32-byte buffer descriptor, as used by the `TrianglePass` constructor. -/
def bufDesc32 : GPUBufferDescriptor := { size := 32, usage := 0 }

/-- A small texture descriptor for concrete registry scenarios. -/
def texDescSmall : GPUTextureDescriptor :=
  { width := 1, height := 1, format := "rgba8unorm", usage := 0 }

/-! ### Registry lemmas -/

theorem lookupEntry_setEntry_self (l : List (String × Nat)) (label : String) (h : Nat) :
    lookupEntry (setEntry l label h) label = some h := by
  induction l with
  | nil => simp [setEntry, lookupEntry]
  | cons p rest ih =>
    by_cases hp : p.1 = label
    · simp [setEntry, hp, lookupEntry]
    · simp [setEntry, hp, lookupEntry, ih]

theorem mem_setEntry (l : List (String × Nat)) (label : String) (h : Nat) :
    ∀ q ∈ setEntry l label h, q.1 = label ∨ q ∈ l := by
  induction l with
  | nil =>
    intro q hq
    simp [setEntry] at hq
    left
    rw [hq]
  | cons p rest ih =>
    intro q hq
    by_cases hp : p.1 = label
    · simp [setEntry, hp] at hq
      rcases hq with hq | hq
      · left; rw [hq]
      · right; exact List.mem_cons_of_mem p hq
    · simp [setEntry, hp] at hq
      rcases hq with hq | hq
      · right; rw [hq]; exact List.mem_cons_self p rest
      · rcases ih q hq with h1 | h1
        · left; exact h1
        · right; exact List.mem_cons_of_mem p h1

theorem uniqueKeys_setEntry (l : List (String × Nat)) (label : String) (h : Nat)
    (hl : uniqueKeys l) : uniqueKeys (setEntry l label h) := by
  induction l with
  | nil => simp [setEntry, uniqueKeys]
  | cons p rest ih =>
    unfold uniqueKeys at hl ⊢
    rw [List.pairwise_cons] at hl
    by_cases hp : p.1 = label
    · simp only [setEntry]
      rw [if_pos hp, List.pairwise_cons]
      refine ⟨fun q hq => ?_, hl.2⟩
      have := hl.1 q hq
      rw [hp] at this
      exact this
    · simp only [setEntry]
      rw [if_neg hp, List.pairwise_cons]
      refine ⟨fun q hq => ?_, ih hl.2⟩
      rcases mem_setEntry rest label h q hq with h1 | h1
      · rw [h1]; exact hp
      · exact hl.1 q h1

/-! ### Claim theorems -/

/-- C1: the claim says the batcher records, at each mesh's own row of the
draw-parameter table, the tuple with indexCount = that mesh's index-array
length; expected table for the §8 scene is row 1 = (6,2,0,0,0) and
row 2 = (3,1,6,0,2).  The code instead writes every tuple at position 0
(`drawParameters.set` is called without an offset) and uses
`mesh.vertexBuffer.length` as the first component, so the table for the
§8 scene is (24,1,6,0,2) followed by an all-zero row. -/
theorem c1_draw_table_bug :
    (createMeshBuffer 32 sceneS8).drawParameters = [24, 1, 6, 0, 2, 0, 0, 0, 0, 0] ∧
    (createMeshBuffer 32 sceneS8).drawParameters ≠ [6, 2, 0, 0, 0, 3, 1, 6, 0, 2] := by
  decide

/-- C2: the claim says the table has k rows, the instanceCounts sum to n,
and each row satisfies firstIndex + indexCount ≤ index-array length and
firstInstance + instanceCount ≤ object-index-array length.  On the §8
scene (k = 2 distinct meshes, n = 3 instances) the code produces rows
(24,1,6,0,2) and (0,0,0,0,0): the instanceCounts sum to 1 ≠ 3, and the
first row has firstIndex + indexCount = 30 > 9 = index-array length. -/
theorem c2_batching_invariant_bug :
    (createMeshBuffer 32 sceneS8).instancesSize = 2 ∧
    drawCalls (createMeshBuffer 32 sceneS8).drawParameters =
      [(24, 1, 6, 0, 2), (0, 0, 0, 0, 0)] ∧
    ((drawCalls (createMeshBuffer 32 sceneS8).drawParameters).map
      (fun r => r.2.1)).sum ≠ 3 ∧
    (createMeshBuffer 32 sceneS8).indexArray.length = 9 ∧
    ¬ (∀ r ∈ drawCalls (createMeshBuffer 32 sceneS8).drawParameters,
        r.2.2.1 + r.1 ≤ (createMeshBuffer 32 sceneS8).indexArray.length) := by
  decide

/-- C3: the claim says the object-index array is dense with length equal
to the total mesh-instance count and concatenates every instance id of
each mesh; for the §8 scene it should be (0, 1, 2).  The code allocates
it with length `scene.entities.size` (total entity count) and never
appends an id for a repeat instance (`count.count++` is the whole
else-branch), so the §8 scene yields (0, 0, 2), and adding a fourth,
non-mesh entity makes the array length 4 while the mesh-instance count
stays 3. -/
theorem c3_id_array_bug :
    (createMeshBuffer 32 sceneS8).idArray = [0, 0, 2] ∧
    (createMeshBuffer 32 sceneS8).idArray ≠ [0, 1, 2] ∧
    (createMeshBuffer 32 (sceneS8 ++ [{ id := 3, inst := none }])).idArray.length = 4 := by
  decide

/-- C4: the claim says each mesh instance's world transform occupies the
16 floats starting at offset 16 * id.  The code calls
`transformArray.set(transform, scene.getId(object))` — the raw id, not
16 * id — so on the §8 scene the array is 10, 11, then sixteen 12s, then
zeros, and the range at offset 16 (entity id 1) is not that entity's
transform (sixteen 11s).  The array length 16 * entity-count part of the
claim does hold. -/
theorem c4_transform_offset_bug :
    (createMeshBuffer 32 sceneS8).transformArray =
      [10, 11] ++ List.replicate 16 12 ++ List.replicate 30 0 ∧
    (createMeshBuffer 32 sceneS8).transformArray.length = 16 * sceneS8.length ∧
    ((createMeshBuffer 32 sceneS8).transformArray.drop 16).take 16 ≠
      List.replicate 16 11 := by
  decide

/-- C5: the claim says each frame recreates the four buffers at
max(byte length, minimum allocation) and uploads each computed array into
its own buffer.  The creation sizes are as claimed, but the third
`writeBuffer` call passes `drawParameters`, not `transformArray`, so the
transform buffer receives the draw-parameter table. -/
theorem c5_transform_upload_bug :
    (createMeshBuffer 32 sceneS8).bufferOps =
      [("vertex", 224), ("index", 36), ("transform", 192), ("object-index", 32)] ∧
    (createMeshBuffer 32 sceneS8).uploads =
      [("vertex", (createMeshBuffer 32 sceneS8).vertexArray),
       ("index", (createMeshBuffer 32 sceneS8).indexArray),
       ("transform", (createMeshBuffer 32 sceneS8).drawParameters),
       ("object-index", (createMeshBuffer 32 sceneS8).idArray)] ∧
    (createMeshBuffer 32 sceneS8).drawParameters ≠
      (createMeshBuffer 32 sceneS8).transformArray := by
  decide

/-- C6: on a zero-entity scene the batcher creates all four buffers at the
configured minimum allocation size (positive, hence never zero-sized),
the draw-parameter table has zero rows, and the render loop issues zero
draw calls; no step of the modelled code path fails. -/
theorem c6_empty_scene (m : Nat) (hm : 0 < m) :
    (createMeshBuffer m []).bufferOps =
      [("vertex", m), ("index", m), ("transform", m), ("object-index", m)] ∧
    (∀ p ∈ (createMeshBuffer m []).bufferOps, 0 < p.2) ∧
    (createMeshBuffer m []).drawParameters = [] ∧
    drawCalls (createMeshBuffer m []).drawParameters = [] := by
  have hops : (createMeshBuffer m []).bufferOps =
      [("vertex", m), ("index", m), ("transform", m), ("object-index", m)] := by
    simp [createMeshBuffer, scanScene, Nat.zero_max]
  refine ⟨hops, ?_, rfl, rfl⟩
  rw [hops]
  intro p hp
  simp only [List.mem_cons, List.not_mem_nil, or_false] at hp
  rcases hp with rfl | rfl | rfl | rfl <;> exact hm

/-- C6 witness: the empty scene with minimum allocation 32. -/
theorem c6_empty_scene_witness :
    0 < 32 ∧
    ((createMeshBuffer 32 []).bufferOps =
      [("vertex", 32), ("index", 32), ("transform", 32), ("object-index", 32)] ∧
    (∀ p ∈ (createMeshBuffer 32 []).bufferOps, 0 < p.2) ∧
    (createMeshBuffer 32 []).drawParameters = [] ∧
    drawCalls (createMeshBuffer 32 []).drawParameters = []) :=
  ⟨by decide, c6_empty_scene 32 (by decide)⟩

/-- C7: at most one live resource per label.  From any registry state
with unique map keys: any resource previously registered under L lands in
the destroyed list of the create that replaces it; the map afterwards
keeps unique keys and `get L` returns exactly the newly created resource;
and replacing L twice in a row destroys the intermediate resource as
well, for buffers and textures alike. -/
theorem c7_single_live_per_label (s : WebGPUState) (d : GPUBufferDescriptor)
    (dt : GPUTextureDescriptor) (L : String)
    (hb : uniqueKeys s.sharedBuffers) (ht : uniqueKeys s.sharedTextures) :
    (∀ h, lookupEntry s.sharedBuffers L = some h →
      h ∈ (createBuffer s d L).state.destroyedBuffers) ∧
    getBuffer (createBuffer s d L).state L = Except.ok (createBuffer s d L).buffer ∧
    uniqueKeys (createBuffer s d L).state.sharedBuffers ∧
    (createBuffer s d L).buffer ∈
      (createBuffer (createBuffer s d L).state d L).state.destroyedBuffers ∧
    getBuffer (createBuffer (createBuffer s d L).state d L).state L =
      Except.ok (createBuffer (createBuffer s d L).state d L).buffer ∧
    (∀ h, lookupEntry s.sharedTextures L = some h →
      h ∈ (createTexture s dt L).state.destroyedTextures) ∧
    getTexture (createTexture s dt L).state L =
      Except.ok (createTexture s dt L).texture ∧
    uniqueKeys (createTexture s dt L).state.sharedTextures ∧
    (createTexture s dt L).texture ∈
      (createTexture (createTexture s dt L).state dt L).state.destroyedTextures := by
  refine ⟨?_, ?_, ?_, ?_, ?_, ?_, ?_, ?_, ?_⟩
  · intro h hh
    simp [createBuffer, hh]
  · simp [getBuffer, createBuffer, lookupEntry_setEntry_self]
  · exact uniqueKeys_setEntry s.sharedBuffers L s.nextHandle hb
  · simp [createBuffer, lookupEntry_setEntry_self]
  · simp [getBuffer, createBuffer, lookupEntry_setEntry_self]
  · intro h hh
    simp [createTexture, hh]
  · simp [getTexture, createTexture, lookupEntry_setEntry_self]
  · exact uniqueKeys_setEntry s.sharedTextures L s.nextHandle ht
  · simp [createTexture, lookupEntry_setEntry_self]

/-- C7 witness: a registry already holding a buffer and a texture under
"a", replaced twice more. -/
theorem c7_single_live_per_label_witness :
    (uniqueKeys (createBuffer initialWebGPU bufDesc32 "a").state.sharedBuffers ∧
     uniqueKeys (createBuffer initialWebGPU bufDesc32 "a").state.sharedTextures) ∧
    ((∀ h, lookupEntry (createBuffer initialWebGPU bufDesc32 "a").state.sharedBuffers "a" =
        some h →
      h ∈ (createBuffer (createBuffer initialWebGPU bufDesc32 "a").state bufDesc32
        "a").state.destroyedBuffers) ∧
    getBuffer (createBuffer (createBuffer initialWebGPU bufDesc32 "a").state bufDesc32
        "a").state "a" =
      Except.ok (createBuffer (createBuffer initialWebGPU bufDesc32 "a").state bufDesc32
        "a").buffer ∧
    uniqueKeys (createBuffer (createBuffer initialWebGPU bufDesc32 "a").state bufDesc32
        "a").state.sharedBuffers ∧
    (createBuffer (createBuffer initialWebGPU bufDesc32 "a").state bufDesc32 "a").buffer ∈
      (createBuffer (createBuffer (createBuffer initialWebGPU bufDesc32 "a").state
        bufDesc32 "a").state bufDesc32 "a").state.destroyedBuffers ∧
    getBuffer (createBuffer (createBuffer (createBuffer initialWebGPU bufDesc32 "a").state
        bufDesc32 "a").state bufDesc32 "a").state "a" =
      Except.ok (createBuffer (createBuffer (createBuffer initialWebGPU bufDesc32
        "a").state bufDesc32 "a").state bufDesc32 "a").buffer ∧
    (∀ h, lookupEntry (createBuffer initialWebGPU bufDesc32 "a").state.sharedTextures "a" =
        some h →
      h ∈ (createTexture (createBuffer initialWebGPU bufDesc32 "a").state texDescSmall
        "a").state.destroyedTextures) ∧
    getTexture (createTexture (createBuffer initialWebGPU bufDesc32 "a").state texDescSmall
        "a").state "a" =
      Except.ok (createTexture (createBuffer initialWebGPU bufDesc32 "a").state
        texDescSmall "a").texture ∧
    uniqueKeys (createTexture (createBuffer initialWebGPU bufDesc32 "a").state
        texDescSmall "a").state.sharedTextures ∧
    (createTexture (createBuffer initialWebGPU bufDesc32 "a").state texDescSmall
        "a").texture ∈
      (createTexture (createTexture (createBuffer initialWebGPU bufDesc32 "a").state
        texDescSmall "a").state texDescSmall "a").state.destroyedTextures) :=
  ⟨⟨by decide, by decide⟩,
   c7_single_live_per_label (createBuffer initialWebGPU bufDesc32 "a").state bufDesc32
     texDescSmall "a" (by decide) (by decide)⟩

/-- C8: `get` on a label under which nothing is registered — never
created, or removed — throws the resource-not-found `Error` for buffers
and for textures alike; it never returns a default value. -/
theorem c8_get_absent_fails (s : WebGPUState) (L : String)
    (hb : lookupEntry s.sharedBuffers L = none)
    (ht : lookupEntry s.sharedTextures L = none) :
    getBuffer s L = Except.error ("There is no buffer with the label: " ++ L) ∧
    getTexture s L = Except.error ("There is no texture with the label: " ++ L) := by
  constructor
  · simp [getBuffer, hb]
  · simp [getTexture, ht]

/-- C8 witness: the label "a" after its entries were created and then
removed again (covering both the never-created texture map state and the
removed-entry buffer map state). -/
theorem c8_get_absent_fails_witness :
    (lookupEntry (destroyBuffer (createBuffer initialWebGPU bufDesc32 "a").state
        "a").sharedBuffers "a" = none ∧
     lookupEntry (destroyBuffer (createBuffer initialWebGPU bufDesc32 "a").state
        "a").sharedTextures "a" = none) ∧
    (getBuffer (destroyBuffer (createBuffer initialWebGPU bufDesc32 "a").state "a") "a" =
      Except.error ("There is no buffer with the label: " ++ "a") ∧
    getTexture (destroyBuffer (createBuffer initialWebGPU bufDesc32 "a").state "a") "a" =
      Except.error ("There is no texture with the label: " ++ "a")) :=
  ⟨⟨by decide, by decide⟩,
   c8_get_absent_fails (destroyBuffer (createBuffer initialWebGPU bufDesc32 "a").state "a")
     "a" (by decide) (by decide)⟩

/-- C9: the claim says destroy removes the entry and releases the GPU
resource for buffers and textures alike.  `destroyTexture` does; but
`destroyBuffer` evaluates `...get(label)?.destroy` without calling it, so
after create("a") then destroyBuffer("a") the entry is gone and a
subsequent get fails, yet the buffer handle was never destroyed.  The
no-op-when-absent part holds. -/
theorem c9_destroy_buffer_bug :
    lookupEntry (destroyBuffer (createBuffer initialWebGPU bufDesc32 "a").state
      "a").sharedBuffers "a" = none ∧
    (createBuffer initialWebGPU bufDesc32 "a").buffer ∉
      (destroyBuffer (createBuffer initialWebGPU bufDesc32 "a").state
        "a").destroyedBuffers ∧
    destroyBuffer initialWebGPU "a" = initialWebGPU ∧
    destroyTexture initialWebGPU "a" = initialWebGPU ∧
    (createTexture initialWebGPU texDescSmall "a").texture ∈
      (destroyTexture (createTexture initialWebGPU texDescSmall "a").state
        "a").destroyedTextures ∧
    lookupEntry (destroyTexture (createTexture initialWebGPU texDescSmall "a").state
      "a").sharedTextures "a" = none := by
  decide

/-- C10: `createBuffer` and `createTexture` overwrite the caller's
descriptor's label field with the supplied label argument, and the GPU
object is created from exactly that mutated descriptor. -/
theorem c10_descriptor_label_overwritten (s : WebGPUState) (d : GPUBufferDescriptor)
    (dt : GPUTextureDescriptor) (L : String) :
    (createBuffer s d L).callerDescriptor = { d with label := some L } ∧
    (createBuffer s d L).deviceDescriptor = (createBuffer s d L).callerDescriptor ∧
    (createTexture s dt L).callerDescriptor = { dt with label := some L } ∧
    (createTexture s dt L).deviceDescriptor = (createTexture s dt L).callerDescriptor :=
  ⟨rfl, rfl, rfl, rfl⟩

end WebgpuEngine
